import Mathlib

/-!
Verification of the SystemEval test-orchestration engine against its
natural-language specification.

The Lean definitions below are a shallow embedding of the Python sources:

* `systemeval/core/evaluation.py` — `MetricResult`, `SessionResult`,
  `EvaluationMetadata`, `EvaluationResult` with its verdict cascade,
  `finalize()` and `_compute_hash()` (SHA-256 over a sorted-keys JSON dump);
* `systemeval/types.py` — the adapter-facing `TestResult` and its verdict;
* `systemeval/environments/executor.py` — `TestExecutor._execute_single`,
  `_execute_sequence` and `parse_test_results` (the regex-based output
  parser, modelled by specialised searchers with Python `re.search`
  leftmost/lazy semantics);
* `systemeval/config.py` — `SystemEvalConfig.validate_composite_deps`;
* `systemeval/environments/browser.py` — `BrowserEnvironment.wait_ready`.

Machine reals (`time.time()` durations, parsed float durations) are
modelled as rationals; Python `Any` metric values as the closed `PyValue`
type; fallible paths (uncaught exceptions) as `Option`/`Except`.
-/

namespace SystemEval

/-- `Verdict` enum from `evaluation.py` / `types.py`. -/
inductive Verdict where
  | PASS
  | FAIL
  | ERROR
deriving DecidableEq, Repr

/-- A Python value appearing as a metric's `value`/`expected` field
(`Any` in the source).  The constructors cover the value kinds the
repository actually stores in metrics (ints, floats-as-rationals are not
needed by the claims; strings, booleans and `None` are). -/
inductive PyValue where
  | VInt : Int → PyValue
  | VStr : String → PyValue
  | VBool : Bool → PyValue
  | VNone : PyValue
deriving DecidableEq, Repr

/-- `MetricResult` dataclass (`evaluation.py`): one measured fact. -/
structure MetricResult where
  name : String
  value : PyValue
  expected : PyValue
  passed : Bool
  message : Option String := none
  severity : String := "error"
deriving DecidableEq, Repr

/-- `SessionResult` dataclass (`evaluation.py`): a named group of metrics
plus timing and raw-output capture. -/
structure SessionResult where
  session_id : String
  session_name : String
  metrics : List MetricResult := []
  started_at : Option String := none
  completed_at : Option String := none
  duration_seconds : ℚ := 0
  stdout : String := ""
  stderr : String := ""
deriving DecidableEq, Repr

/-- `SessionResult.verdict` (evaluation.py lines 120-127):
`ERROR` if no metrics, `PASS` if all passed, else `FAIL`. -/
def SessionResult.verdict (s : SessionResult) : Verdict :=
  if s.metrics.isEmpty then .ERROR
  else if s.metrics.all (·.passed) then .PASS
  else .FAIL

/-- `EvaluationMetadata` dataclass (`evaluation.py`). -/
structure EvaluationMetadata where
  evaluation_id : String
  run_hash : String := ""
  timestamp_utc : String := ""
  duration_seconds : ℚ := 0
  environment : List (String × String) := []
  adapter_type : String := ""
  category : Option String := none
  project_name : Option String := none
  command : Option String := none
deriving DecidableEq, Repr

/-- `EvaluationResult` dataclass (`evaluation.py`): metadata plus an
append-only list of sessions; `startTime` and `finalized` model the
private `_start_time` / `_finalized` fields. -/
structure EvaluationResult where
  metadata : EvaluationMetadata
  sessions : List SessionResult := []
  diagnostics : List String := []
  warnings : List String := []
  startTime : ℚ := 0
  finalized : Bool := false
deriving DecidableEq, Repr

/-- `EvaluationResult.verdict` (evaluation.py lines 229-246):
`ERROR` if no sessions or any session `ERROR`, else `FAIL` if any session
`FAIL`, else `PASS`. -/
def EvaluationResult.verdict (r : EvaluationResult) : Verdict :=
  if r.sessions.isEmpty then .ERROR
  else if r.sessions.any (fun s => s.verdict = .ERROR) then .ERROR
  else if r.sessions.any (fun s => s.verdict = .FAIL) then .FAIL
  else .PASS

/-- `EvaluationResult.exit_code` (evaluation.py lines 248-255). -/
def EvaluationResult.exitCode (r : EvaluationResult) : ℤ :=
  match r.verdict with
  | .PASS => 0
  | .FAIL => 1
  | .ERROR => 2

/-! ### Content hash (`EvaluationResult._compute_hash`, evaluation.py 313-343)

The hash is `hashlib.sha256(json.dumps(hash_content, sort_keys=True).encode()).hexdigest()[:16]`.
We embed Python's `str()` on metric values, the `json.dumps` output for the
fixed shape of `hash_content` (keys emitted in sorted order with the default
`", "` / `": "` separators and `ensure_ascii=True` escaping), UTF-8 encoding,
and SHA-256 itself over byte lists. -/

/-- Python `str()` on the metric `value` (evaluation.py line 332 stringifies
with `str(m.value)`). -/
def pyStr : PyValue → String
  | .VInt n => toString n
  | .VStr s => s
  | .VBool b => if b then "True" else "False"
  | .VNone => "None"

/-- `Verdict.value` — the enum's string payload. -/
def Verdict.value : Verdict → String
  | .PASS => "PASS"
  | .FAIL => "FAIL"
  | .ERROR => "ERROR"

/-- Lower-case hex digit. -/
def hexDigit (n : Nat) : Char :=
  if n < 10 then Char.ofNat (48 + n) else Char.ofNat (87 + n)

/-- `json.dumps` escaping of one character (`ensure_ascii=True`): the two
mandatory escapes, the short control escapes, `\u00XX` for other control
characters and `\uXXXX` for non-ASCII code points of the basic plane (the
strings hashed by the repository are ASCII). -/
def jsonEscapeChar (c : Char) : String :=
  if c = '"' then "\\\""
  else if c = '\\' then "\\\\"
  else if c = '\n' then "\\n"
  else if c = '\t' then "\\t"
  else if c = '\r' then "\\r"
  else if c.toNat = 8 then "\\b"
  else if c.toNat = 12 then "\\f"
  else if c.toNat < 32 ∨ c.toNat > 126 then
    String.mk ['\\', 'u', hexDigit (c.toNat / 4096 % 16), hexDigit (c.toNat / 256 % 16),
      hexDigit (c.toNat / 16 % 16), hexDigit (c.toNat % 16)]
  else String.singleton c

/-- JSON string literal as `json.dumps` prints it. -/
def jsonStr (s : String) : String :=
  "\"" ++ String.join (s.data.map jsonEscapeChar) ++ "\""

/-- JSON rendering of `Optional[str]` (`null` for `None`). -/
def jsonOptStr : Option String → String
  | none => "null"
  | some s => jsonStr s

/-- One metric's dict inside `hash_content` (evaluation.py 330-334): keys
`name`, `passed`, `value` in sorted order, the value stringified. -/
def metricJson (m : MetricResult) : String :=
  "\x7b\"name\": " ++ jsonStr m.name ++
  ", \"passed\": " ++ (if m.passed then "true" else "false") ++
  ", \"value\": " ++ jsonStr (pyStr m.value) ++ "\x7d"

/-- One session's dict inside `hash_content` (evaluation.py 326-337): keys
`metrics`, `session_name`, `verdict` in sorted order. -/
def sessionJson (s : SessionResult) : String :=
  "\x7b\"metrics\": [" ++ String.intercalate ", " (s.metrics.map metricJson) ++
  "], \"session_name\": " ++ jsonStr s.session_name ++
  ", \"verdict\": " ++ jsonStr s.verdict.value ++ "\x7d"

/-- `json.dumps(hash_content, sort_keys=True)` for the dict built in
`_compute_hash` (evaluation.py 320-342): keys `adapter_type`, `category`,
`project_name`, `sessions`, `verdict` in sorted order. -/
def hashContentJson (r : EvaluationResult) : String :=
  "\x7b\"adapter_type\": " ++ jsonStr r.metadata.adapter_type ++
  ", \"category\": " ++ jsonOptStr r.metadata.category ++
  ", \"project_name\": " ++ jsonOptStr r.metadata.project_name ++
  ", \"sessions\": [" ++ String.intercalate ", " (r.sessions.map sessionJson) ++
  "], \"verdict\": " ++ jsonStr r.verdict.value ++ "\x7d"

/-- UTF-8 encoding of one code point (Python `str.encode()`). -/
def utf8Char (c : Nat) : List Nat :=
  if c < 128 then [c]
  else if c < 2048 then [192 + c / 64, 128 + c % 64]
  else if c < 65536 then [224 + c / 4096, 128 + c / 64 % 64, 128 + c % 64]
  else [240 + c / 262144, 128 + c / 4096 % 64, 128 + c / 64 % 64, 128 + c % 64]

/-- UTF-8 encoding of a string as a byte list. -/
def utf8Encode (s : String) : List Nat :=
  (s.data.map (fun c => utf8Char c.toNat)).flatten

namespace SHA256

/-- 2^32, the word modulus. -/
def M32 : Nat := 4294967296

/-- Rotate a 32-bit word right by `n`. -/
def rotr (n a : Nat) : Nat :=
  ((a >>> n) ||| (a <<< (32 - n))) % M32

def bsig0 (x : Nat) : Nat := (rotr 2 x) ^^^ (rotr 13 x) ^^^ (rotr 22 x)
def bsig1 (x : Nat) : Nat := (rotr 6 x) ^^^ (rotr 11 x) ^^^ (rotr 25 x)
def ssig0 (x : Nat) : Nat := (rotr 7 x) ^^^ (rotr 18 x) ^^^ (x >>> 3)
def ssig1 (x : Nat) : Nat := (rotr 17 x) ^^^ (rotr 19 x) ^^^ (x >>> 10)
def ch (x y z : Nat) : Nat := (x &&& y) ^^^ ((x ^^^ 4294967295) &&& z)
def maj (x y z : Nat) : Nat := (x &&& y) ^^^ (x &&& z) ^^^ (y &&& z)

/-- The 64 round constants (FIPS 180-4, in decimal). -/
def K : List Nat :=
  [1116352408, 1899447441, 3049323471, 3921009573,
   961987163, 1508970993, 2453635748, 2870763221,
   3624381080, 310598401, 607225278, 1426881987,
   1925078388, 2162078206, 2614888103, 3248222580,
   3835390401, 4022224774, 264347078, 604807628,
   770255983, 1249150122, 1555081692, 1996064986,
   2554220882, 2821834349, 2952996808, 3210313671,
   3336571891, 3584528711, 113926993, 338241895,
   666307205, 773529912, 1294757372, 1396182291,
   1695183700, 1986661051, 2177026350, 2456956037,
   2730485921, 2820302411, 3259730800, 3345764771,
   3516065817, 3600352804, 4094571909, 275423344,
   430227734, 506948616, 659060556, 883997877,
   958139571, 1322822218, 1537002063, 1747873779,
   1955562222, 2024104815, 2227730452, 2361852424,
   2428436474, 2756734187, 3204031479, 3329325298]

/-- Big-endian byte rendering of `v` on `n` bytes. -/
def beBytes (n v : Nat) : List Nat :=
  (List.range n).map (fun i => v >>> (8 * (n - 1 - i)) % 256)

/-- SHA-256 padding: `0x80`, zeros to 56 mod 64, 8-byte big-endian bit length. -/
def padBytes (msg : List Nat) : List Nat :=
  let len := msg.length
  let k := (119 - len % 64) % 64
  msg ++ 0x80 :: (List.replicate k 0 ++ beBytes 8 (8 * len))

/-- Split a byte list into 64-byte blocks (structural recursion on a fuel
bound so that kernel evaluation works; every step consumes at least one
byte, so `l.length + 1` fuel always suffices). -/
def chunksAux : Nat → List Nat → List (List Nat)
  | 0, _ => []
  | _ + 1, [] => []
  | fuel + 1, l => l.take 64 :: chunksAux fuel (l.drop 64)

/-- Split a byte list into 64-byte blocks. -/
def chunks (l : List Nat) : List (List Nat) :=
  chunksAux (l.length + 1) l

/-- The 16 big-endian words of one 64-byte block. -/
def toWords (block : List Nat) : List Nat :=
  (List.range 16).map (fun i =>
    (block.getD (4 * i) 0) <<< 24 + (block.getD (4 * i + 1) 0) <<< 16 +
    (block.getD (4 * i + 2) 0) <<< 8 + block.getD (4 * i + 3) 0)

/-- Message schedule: extend 16 words to 64. -/
def schedule (ws : List Nat) : List Nat :=
  (List.range 48).foldl (fun w i =>
    let t := i + 16
    w ++ [(ssig1 (w.getD (t - 2) 0) + w.getD (t - 7) 0 +
           ssig0 (w.getD (t - 15) 0) + w.getD (t - 16) 0) % M32]) ws

/-- Compression state: the eight working variables. -/
structure St where
  a : Nat
  b : Nat
  c : Nat
  d : Nat
  e : Nat
  f : Nat
  g : Nat
  h : Nat
deriving Repr

/-- One of the 64 rounds. -/
def round (st : St) (k w : Nat) : St :=
  let t1 := (st.h + bsig1 st.e + ch st.e st.f st.g + k + w) % M32
  let t2 := (bsig0 st.a + maj st.a st.b st.c) % M32
  ⟨(t1 + t2) % M32, st.a, st.b, st.c, (st.d + t1) % M32, st.e, st.f, st.g⟩

/-- Process one 64-byte block. -/
def compress (hs : St) (block : List Nat) : St :=
  let w := schedule (toWords block)
  let st := (List.range 64).foldl
    (fun st i => round st (K.getD i 0) (w.getD i 0)) hs
  ⟨(hs.a + st.a) % M32, (hs.b + st.b) % M32, (hs.c + st.c) % M32, (hs.d + st.d) % M32,
   (hs.e + st.e) % M32, (hs.f + st.f) % M32, (hs.g + st.g) % M32, (hs.h + st.h) % M32⟩

/-- The initial hash value (FIPS 180-4, in decimal). -/
def H0 : St :=
  ⟨1779033703, 3144134277, 1013904242, 2773480762,
   1359893119, 2600822924, 528734635, 1541459225⟩

/-- Eight lower-case hex digits of a 32-bit word. -/
def toHex8 (w : Nat) : String :=
  String.mk ((List.range 8).map (fun i => hexDigit (w >>> (4 * (7 - i)) % 16)))

/-- `hashlib.sha256(msg).hexdigest()` for a byte list. -/
def sha256hex (msg : List Nat) : String :=
  let hs := (chunks (padBytes msg)).foldl compress H0
  toHex8 hs.a ++ toHex8 hs.b ++ toHex8 hs.c ++ toHex8 hs.d ++
  toHex8 hs.e ++ toHex8 hs.f ++ toHex8 hs.g ++ toHex8 hs.h

end SHA256

/-- `EvaluationResult._compute_hash` (evaluation.py 313-343): SHA-256 over
the sorted-keys JSON dump of the content dict, truncated to 16 hex chars. -/
def computeHash (r : EvaluationResult) : String :=
  (SHA256.sha256hex (utf8Encode (hashContentJson r))).take 16

/-- `EvaluationResult.finalize` (evaluation.py 292-311).  `now` models
`time.time()`; Python's `if self._start_time:` is float truthiness. -/
def finalize (r : EvaluationResult) (now : ℚ) : EvaluationResult :=
  if r.finalized then r
  else
    let md₀ := r.metadata
    let md₁ := if r.startTime ≠ 0 then
        { md₀ with duration_seconds := now - r.startTime } else md₀
    { r with metadata := { md₁ with run_hash := computeHash r }, finalized := true }

/-- `EvaluationResult.add_session` (evaluation.py 278-282): raises
`RuntimeError` on a finalized result, else appends. -/
def addSession (r : EvaluationResult) (s : SessionResult) :
    Except String EvaluationResult :=
  if r.finalized then .error "Cannot add session to finalized evaluation"
  else .ok { r with sessions := r.sessions ++ [s] }

/-- The hash-relevant content of one metric: name, value, passed flag
(the fields claim C2 quantifies over). -/
def metricContent (m : MetricResult) : String × PyValue × Bool :=
  (m.name, m.value, m.passed)

/-- The hash-relevant content of one session: its name and its metrics'
content. -/
def sessionContent (s : SessionResult) : String × List (String × PyValue × Bool) :=
  (s.session_name, s.metrics.map metricContent)

/-- A small concrete evaluation used to exercise the content hash: one
session with one metric whose value is `v`. -/
def demoEval (v : PyValue) : EvaluationResult :=
  { metadata := { evaluation_id := "id-1", adapter_type := "a" },
    sessions := [{ session_id := "sid-1", session_name := "s",
                   metrics := [{ name := "m", value := v, expected := .VNone,
                                 passed := true }] }] }

/-- Like `demoEval (.VInt 2)` but with different wall-clock metadata:
different UUID, timestamp, hostname entry, session id and start time —
none of which enter the content hash. -/
def demoEvalOtherHost : EvaluationResult :=
  { metadata := { evaluation_id := "id-2", timestamp_utc := "2026-01-01T00:00:00",
                  environment := [("hostname", "other-machine")],
                  adapter_type := "a" },
    sessions := [{ session_id := "sid-9", session_name := "s",
                   started_at := some "2026-01-01T00:00:01",
                   duration_seconds := 42,
                   metrics := [{ name := "m", value := .VInt 2, expected := .VNone,
                                 passed := true }] }],
    startTime := 5 }

/-- The session verdict exactly as the specification words it (claim C1):
ERROR when the metrics list is empty, PASS when every metric's `passed`
flag is true, FAIL otherwise. -/
def specSessionVerdict (s : SessionResult) : Verdict :=
  if s.metrics = [] then .ERROR
  else if ∀ m ∈ s.metrics, m.passed = true then .PASS
  else .FAIL

/-- The evaluation verdict exactly as the specification words it (claim
C1): ERROR when the sessions list is empty or some session's verdict is
ERROR, else FAIL when some session's verdict is FAIL, else PASS. -/
def specEvalVerdict (r : EvaluationResult) : Verdict :=
  if r.sessions = [] ∨ ∃ s ∈ r.sessions, s.verdict = .ERROR then .ERROR
  else if ∃ s ∈ r.sessions, s.verdict = .FAIL then .FAIL
  else .PASS

end SystemEval

namespace SystemEval

/-- C1: for every `SessionResult`, the computed verdict agrees with the
specification's cascade (ERROR on zero metrics, PASS when every metric
passed, FAIL otherwise), and for every `EvaluationResult` the computed
verdict agrees with the specification's cascade one level up (ERROR on
zero sessions or any ERROR session, else FAIL on any FAIL session, else
PASS). -/
theorem verdict_cascade_matches_spec :
    (∀ s : SessionResult, s.verdict = specSessionVerdict s) ∧
    (∀ r : EvaluationResult, r.verdict = specEvalVerdict r) := by
  constructor
  · intro s
    simp only [SessionResult.verdict, specSessionVerdict, List.isEmpty_iff,
      List.all_eq_true]
  · intro r
    simp only [EvaluationResult.verdict, specEvalVerdict, List.isEmpty_iff,
      List.any_eq_true, decide_eq_true_eq]
    by_cases h0 : r.sessions = [] <;> simp [h0]

end SystemEval

namespace SystemEval

/-- Equal metric content gives equal JSON fragments. -/
theorem metricJson_congr {m₁ m₂ : MetricResult}
    (h : metricContent m₁ = metricContent m₂) : metricJson m₁ = metricJson m₂ := by
  simp only [metricContent, Prod.mk.injEq] at h
  obtain ⟨h₁, h₂, h₃⟩ := h
  simp [metricJson, h₁, h₂, h₃]

/-- Equal metric-content lists give equal JSON lists, equal `all passed`
flags and agreeing emptiness. -/
theorem metrics_congr : ∀ {l₁ l₂ : List MetricResult},
    l₁.map metricContent = l₂.map metricContent →
    l₁.map metricJson = l₂.map metricJson ∧
    l₁.all (·.passed) = l₂.all (·.passed) ∧ l₁.isEmpty = l₂.isEmpty := by
  intro l₁
  induction l₁ with
  | nil =>
    intro l₂ h
    have : l₂ = [] := List.map_eq_nil_iff.mp h.symm
    simp [this]
  | cons m ms ih =>
    intro l₂ h
    cases l₂ with
    | nil => simp at h
    | cons b bs =>
      simp only [List.map_cons, List.cons.injEq] at h
      obtain ⟨hm, hms⟩ := h
      obtain ⟨hj, ha, he⟩ := ih hms
      have hpassed : m.passed = b.passed := by
        have := congrArg (fun t => t.2.2) hm
        simpa [metricContent] using this
      refine ⟨?_, ?_, rfl⟩
      · simp [metricJson_congr hm, hj]
      · simp [List.all_cons, hpassed, ha]

/-- Equal session content gives equal derived verdicts and equal JSON
fragments. -/
theorem sessionJson_congr {s₁ s₂ : SessionResult}
    (h : sessionContent s₁ = sessionContent s₂) :
    sessionJson s₁ = sessionJson s₂ ∧ s₁.verdict = s₂.verdict := by
  have hname : s₁.session_name = s₂.session_name := congrArg Prod.fst h
  have hmetrics : s₁.metrics.map metricContent = s₂.metrics.map metricContent :=
    congrArg Prod.snd h
  obtain ⟨hj, ha, he⟩ := metrics_congr hmetrics
  have hv : s₁.verdict = s₂.verdict := by
    unfold SessionResult.verdict
    rw [he, ha]
  exact ⟨by simp [sessionJson, hname, hj, hv], hv⟩

/-- Equal session-content lists give equal JSON lists, equal verdict lists
and agreeing emptiness. -/
theorem sessions_congr : ∀ {l₁ l₂ : List SessionResult},
    l₁.map sessionContent = l₂.map sessionContent →
    l₁.map sessionJson = l₂.map sessionJson ∧
    l₁.map SessionResult.verdict = l₂.map SessionResult.verdict ∧
    l₁.isEmpty = l₂.isEmpty := by
  intro l₁
  induction l₁ with
  | nil =>
    intro l₂ h
    have : l₂ = [] := List.map_eq_nil_iff.mp h.symm
    simp [this]
  | cons s ss ih =>
    intro l₂ h
    cases l₂ with
    | nil => simp at h
    | cons b bs =>
      simp only [List.map_cons, List.cons.injEq] at h
      obtain ⟨hs, hss⟩ := h
      obtain ⟨hj, hv, he⟩ := ih hss
      obtain ⟨hsj, hsv⟩ := sessionJson_congr hs
      exact ⟨by simp [hsj, hj], by simp [hsv, hv], rfl⟩

/-- The evaluation verdict only depends on the sessions' verdict list and
emptiness. -/
theorem evalVerdict_congr {r₁ r₂ : EvaluationResult}
    (hv : r₁.sessions.map SessionResult.verdict = r₂.sessions.map SessionResult.verdict)
    (he : r₁.sessions.isEmpty = r₂.sessions.isEmpty) :
    r₁.verdict = r₂.verdict := by
  have hany : ∀ (l : List SessionResult) (X : Verdict),
      (l.any fun s => s.verdict = X) = ((l.map SessionResult.verdict).any fun v => v = X) := by
    intro l X
    induction l with
    | nil => rfl
    | cons a as ih => simp only [List.map_cons, List.any_cons, ih]
  unfold EvaluationResult.verdict
  rw [he, hany _ Verdict.ERROR, hany _ Verdict.FAIL, hv,
    ← hany _ Verdict.ERROR, ← hany _ Verdict.FAIL]

set_option maxRecDepth 100000 in
set_option maxHeartbeats 2000000 in
/-- C2 (amended): the `run_hash` computed by `finalize()` depends only on
adapter type, category, project name and the per-session content (session
name plus each metric's name/value/passed) — so two evaluations built from
identical such data but different wall-clock time, hostname entries, UUIDs
or timestamps hash identically; and at a concrete evaluation, changing a
metric's value from `2` to `3` (a change visible to `str()`) changes the
hash.  (As stated, the original claim's second half is false: values are
stringified, so changing a value to a differently-typed value with the
same string form leaves the hash unchanged — see the counterexample.) -/
theorem run_hash_reproducible :
    (∀ (r₁ r₂ : EvaluationResult) (t₁ t₂ : ℚ),
      r₁.metadata.adapter_type = r₂.metadata.adapter_type →
      r₁.metadata.category = r₂.metadata.category →
      r₁.metadata.project_name = r₂.metadata.project_name →
      r₁.sessions.map sessionContent = r₂.sessions.map sessionContent →
      r₁.finalized = false → r₂.finalized = false →
      (finalize r₁ t₁).metadata.run_hash = (finalize r₂ t₂).metadata.run_hash) ∧
    (finalize (demoEval (.VInt 2)) 0).metadata.run_hash ≠
      (finalize (demoEval (.VInt 3)) 0).metadata.run_hash := by
  constructor
  · intro r₁ r₂ t₁ t₂ hat hc hp hsess hf₁ hf₂
    have hjson : hashContentJson r₁ = hashContentJson r₂ := by
      obtain ⟨hj, hv, he⟩ := sessions_congr hsess
      unfold hashContentJson
      rw [hat, hc, hp, hj, evalVerdict_congr hv he]
    have hhash : computeHash r₁ = computeHash r₂ := by
      unfold computeHash
      rw [hjson]
    simp only [finalize, hf₁, hf₂, Bool.false_eq_true, if_false, ite_false]
    exact hhash
  · decide

/-- C2 witness: the reproducibility half applied to two concrete
evaluations differing only in UUID, timestamp, hostname entry, session id,
recorded start time and finalize wall-clock. -/
theorem run_hash_reproducible_witness :
    (finalize (demoEval (.VInt 2)) 3).metadata.run_hash =
      (finalize demoEvalOtherHost 11).metadata.run_hash :=
  run_hash_reproducible.1 (demoEval (.VInt 2)) demoEvalOtherHost 3 11
    rfl rfl rfl rfl rfl rfl

set_option maxRecDepth 100000 in
set_option maxHeartbeats 1000000 in
/-- C2 counterexample to the claim as stated: changing the metric's value
from the int `1` to the *string* `"1"` is a change of value
(`PyValue.VInt 1 ≠ PyValue.VStr "1"`, and the session lists differ), yet
`_compute_hash` stringifies values, so the run_hash is unchanged. -/
theorem run_hash_misses_value_type_change :
    (PyValue.VInt 1 ≠ PyValue.VStr "1") ∧
    (demoEval (.VInt 1)).sessions ≠ (demoEval (.VStr "1")).sessions ∧
    (finalize (demoEval (.VInt 1)) 0).metadata.run_hash =
      (finalize (demoEval (.VStr "1")) 0).metadata.run_hash := by
  refine ⟨by decide, by decide, ?_⟩
  have h : hashContentJson (demoEval (.VInt 1)) = hashContentJson (demoEval (.VStr "1")) := by
    decide
  show computeHash (demoEval (.VInt 1)) = computeHash (demoEval (.VStr "1"))
  unfold computeHash
  rw [h]

/-- C7: `finalize()` is idempotent — a second call (at any later
wall-clock time) returns the object unchanged, in particular the stored
`run_hash` is unchanged and nothing is raised (the embedding of
`finalize` is total, as is the Python code path) — and `add_session()`
on a finalized evaluation raises `RuntimeError` rather than appending:
the embedded call returns the error value, producing no updated state, so
the sessions list is left unchanged. -/
theorem finalize_idempotent_add_session_raises :
    ∀ (r : EvaluationResult) (t₁ t₂ : ℚ) (s : SessionResult),
      finalize (finalize r t₁) t₂ = finalize r t₁ ∧
      (finalize (finalize r t₁) t₂).metadata.run_hash = (finalize r t₁).metadata.run_hash ∧
      addSession (finalize r t₁) s = .error "Cannot add session to finalized evaluation" := by
  have hfin : ∀ (r : EvaluationResult) (t : ℚ), (finalize r t).finalized = true := by
    intro r t
    unfold finalize
    by_cases h : r.finalized <;> simp [h]
  have step : ∀ (x : EvaluationResult) (t : ℚ), x.finalized = true → finalize x t = x := by
    intro x t hx
    unfold finalize
    rw [if_pos hx]
  intro r t₁ t₂ s
  refine ⟨step _ t₂ (hfin r t₁), by rw [step _ t₂ (hfin r t₁)], ?_⟩
  unfold addSession
  rw [if_pos (hfin r t₁)]

end SystemEval

namespace SystemEval

/-! ### Command executor (`systemeval/environments/executor.py`)

`_execute_single` is modelled against the observable behaviour of the
spawned process: normal completion with an exit code and captured output,
`subprocess.TimeoutExpired`, or some other exception.  `_execute_sequence`
is modelled over an arbitrary single-command runner. -/

/-- `ExecutionResult` dataclass (executor.py 36-47). -/
structure ExecutionResult where
  exit_code : Int
  stdout : String
  stderr : String
  duration : ℚ
  command : String
deriving DecidableEq, Repr

/-- `ExecutionResult.success` (executor.py 45-47). -/
def ExecutionResult.success (r : ExecutionResult) : Bool :=
  r.exit_code == 0

/-- Python `"sep".join(parts)`. -/
def pyJoin (sep : String) : List String → String
  | [] => ""
  | [x] => x
  | x :: xs => x ++ sep ++ pyJoin sep xs

/-- Python `str()` of an `Optional[int]` (the `timeout` interpolated into
the timeout message). -/
def pyOptIntStr : Option Int → String
  | none => "None"
  | some n => toString n

/-- Observable behaviour of the one process spawned by
`_execute_single`: it completes with an exit code and output, exceeds the
timeout (`subprocess.TimeoutExpired`, with the lines streamed into
`self._output_buffer` so far), or raises some other exception. -/
inductive CmdBehavior where
  | completes (exitCode : Int) (stdout stderr : String) (duration : ℚ)
  | timesOut (buffer : List String) (duration : ℚ)
  | raises (message : String) (duration : ℚ)
deriving DecidableEq, Repr

/-- `TestExecutor._execute_single` (executor.py 100-147) for a given
process behaviour: a missing working directory short-circuits with exit
code 2; completion returns the process result; `TimeoutExpired` returns
exit code 124, the joined output buffer and the
`"Command timed out after {timeout}s"` message; any other exception
returns exit code 1 with the exception text as stderr. -/
def executeSingle (workdirExists : Bool) (behave : CmdBehavior)
    (timeout : Option Int) (workdir command : String) : ExecutionResult :=
  if !workdirExists then
    { exit_code := 2, stdout := "",
      stderr := "Working directory does not exist: " ++ workdir,
      duration := 0, command := command }
  else
    match behave with
    | .completes ec out err d =>
        { exit_code := ec, stdout := out, stderr := err, duration := d, command := command }
    | .timesOut buffer d =>
        { exit_code := 124, stdout := pyJoin "\n" buffer,
          stderr := "Command timed out after " ++ pyOptIntStr timeout ++ "s",
          duration := d, command := command }
    | .raises msg d =>
        { exit_code := 1, stdout := "", stderr := msg, duration := d, command := command }

/-- The `=== cmd ===` header `_execute_sequence` prefixes to each
attempted command's stdout (executor.py line 229). -/
def seqSegment (run : String → ExecutionResult) (cmd : String) : String :=
  "=== " ++ cmd ++ " ===\n" ++ (run cmd).stdout

/-- Loop body of `TestExecutor._execute_sequence` (executor.py 214-249)
with the accumulated stdout segments, stderr segments and duration. -/
def executeSequenceAux (run : String → ExecutionResult) (joined : String)
    (stdoutAcc stderrAcc : List String) (durAcc : ℚ) :
    List String → ExecutionResult
  | [] =>
      { exit_code := 0, stdout := pyJoin "\n" stdoutAcc,
        stderr := pyJoin "\n" stderrAcc, duration := durAcc, command := joined }
  | cmd :: rest =>
      let r := run cmd
      let stdoutAcc' := stdoutAcc ++ [seqSegment run cmd]
      let stderrAcc' := if r.stderr ≠ "" then
          stderrAcc ++ ["=== " ++ cmd ++ " ===\n" ++ r.stderr] else stderrAcc
      let durAcc' := durAcc + r.duration
      if r.success then
        executeSequenceAux run joined stdoutAcc' stderrAcc' durAcc' rest
      else
        { exit_code := r.exit_code, stdout := pyJoin "\n" stdoutAcc',
          stderr := pyJoin "\n" stderrAcc', duration := durAcc', command := joined }

/-- `TestExecutor._execute_sequence` (executor.py 214-249): execute the
commands in order, stop at the first failure. -/
def executeSequence (run : String → ExecutionResult) (commands : List String) :
    ExecutionResult :=
  executeSequenceAux run (pyJoin " && " commands) [] [] 0 commands

/-- `small` occurs contiguously inside `big`. -/
def strContains (big small : String) : Prop :=
  ∃ l r, big.data = l ++ small.data ++ r

end SystemEval

namespace SystemEval

/-- Containment of strings is transitive. -/
theorem strContains_trans {a b c : String}
    (h₁ : strContains a b) (h₂ : strContains b c) : strContains a c := by
  obtain ⟨l₁, r₁, e₁⟩ := h₁
  obtain ⟨l₂, r₂, e₂⟩ := h₂
  exact ⟨l₁ ++ l₂, r₂ ++ r₁, by rw [e₁, e₂]; simp⟩

/-- Every element of a list occurs inside its Python join. -/
theorem strContains_pyJoin (sep : String) :
    ∀ (segs : List String) (s : String), s ∈ segs → strContains (pyJoin sep segs) s := by
  intro segs
  induction segs with
  | nil => intro s h; exact absurd h (List.not_mem_nil s)
  | cons x xs ih =>
    intro s hs
    rcases List.mem_cons.mp hs with h | h
    · subst h
      cases xs with
      | nil => exact ⟨[], [], by simp [pyJoin]⟩
      | cons y rest =>
        refine ⟨[], (sep ++ pyJoin sep (y :: rest)).data, ?_⟩
        simp [pyJoin, String.data_append]
    · cases xs with
      | nil => exact absurd h (List.not_mem_nil s)
      | cons y rest =>
        obtain ⟨l, r, hh⟩ := ih s h
        refine ⟨x.data ++ sep.data ++ l, r, ?_⟩
        simp [pyJoin, String.data_append, hh]

/-- A command's stdout occurs inside its `=== cmd ===` segment. -/
theorem strContains_seqSegment (run : String → ExecutionResult) (cmd : String) :
    strContains (seqSegment run cmd) (run cmd).stdout :=
  ⟨("=== " ++ cmd ++ " ===\n").data, [], by simp [seqSegment, String.data_append]⟩

/-- Running the sequence loop over a prefix of successful commands just
accumulates their segments. -/
theorem executeSequenceAux_passing_run (run : String → ExecutionResult) (joined : String) :
    ∀ (pre rest stdoutAcc stderrAcc : List String) (d : ℚ),
      (∀ p ∈ pre, (run p).success = true) →
      ∃ stderrAcc' d',
        executeSequenceAux run joined stdoutAcc stderrAcc d (pre ++ rest)
          = executeSequenceAux run joined
              (stdoutAcc ++ pre.map (seqSegment run)) stderrAcc' d' rest := by
  intro pre
  induction pre with
  | nil => intro rest sa se d _; exact ⟨se, d, by simp⟩
  | cons c cs ih =>
    intro rest sa se d h
    have hc : (run c).success = true := h c (by simp)
    obtain ⟨se', d', hrec⟩ := ih rest (sa ++ [seqSegment run c])
      (if (run c).stderr ≠ "" then se ++ ["=== " ++ c ++ " ===\n" ++ (run c).stderr] else se)
      (d + (run c).duration) (fun p hp => h p (by simp [hp]))
    refine ⟨se', d', ?_⟩
    rw [List.cons_append]
    simp only [executeSequenceAux, hc, if_true]
    rw [hrec]
    simp

/-- The sequence loop returns exit code 0 when every remaining command
succeeds. -/
theorem executeSequenceAux_all_success (run : String → ExecutionResult) (joined : String) :
    ∀ (cmds sa se : List String) (d : ℚ),
      (∀ p ∈ cmds, (run p).success = true) →
      (executeSequenceAux run joined sa se d cmds).exit_code = 0 := by
  intro cmds
  induction cmds with
  | nil => intro sa se d _; rfl
  | cons c cs ih =>
    intro sa se d h
    have hc : (run c).success = true := h c (by simp)
    simp only [executeSequenceAux, hc, if_true]
    exact ih _ _ _ (fun p hp => h p (by simp [hp]))

/-- C5: sequence mode is fail-fast (executor.py 214-249).  For any
single-command runner and any command list that splits as
`pre ++ c :: post` with every command of `pre` succeeding and `c`
failing: the returned exit code is `c`'s exit code; the captured stdout
is exactly the aggregation of the `=== cmd ===`-headed outputs of the
attempted prefix `pre ++ [c]` — so it contains every attempted command's
output (including the failing one) and, being a function of the attempted
prefix alone, nothing of the commands after `c` (they are never run).
And when every command exits zero the returned exit code is 0. -/
theorem sequence_stops_at_first_failure :
    (∀ (run : String → ExecutionResult) (pre : List String) (c : String) (post : List String),
      (∀ p ∈ pre, (run p).success = true) →
      (run c).success = false →
      (executeSequence run (pre ++ c :: post)).exit_code = (run c).exit_code ∧
      (executeSequence run (pre ++ c :: post)).stdout
          = pyJoin "\n" ((pre ++ [c]).map (seqSegment run)) ∧
      (∀ cmd ∈ pre ++ [c],
        strContains (executeSequence run (pre ++ c :: post)).stdout (run cmd).stdout)) ∧
    (∀ (run : String → ExecutionResult) (commands : List String),
      (∀ p ∈ commands, (run p).success = true) →
      (executeSequence run commands).exit_code = 0) := by
  constructor
  · intro run pre c post hpre hc
    have hstep :
        executeSequence run (pre ++ c :: post)
          = { exit_code := (run c).exit_code,
              stdout := pyJoin "\n" ((pre ++ [c]).map (seqSegment run)),
              stderr := (executeSequence run (pre ++ c :: post)).stderr,
              duration := (executeSequence run (pre ++ c :: post)).duration,
              command := pyJoin " && " (pre ++ c :: post) } := by
      unfold executeSequence
      obtain ⟨se', d', hrec⟩ :=
        executeSequenceAux_passing_run run (pyJoin " && " (pre ++ c :: post))
          pre (c :: post) [] [] 0 hpre
      rw [hrec]
      simp only [executeSequenceAux, hc, Bool.false_eq_true, if_false]
      simp
    refine ⟨by rw [hstep], by rw [hstep], ?_⟩
    intro cmd hcmd
    rw [hstep]
    exact strContains_trans
      (strContains_pyJoin "\n" _ _ (List.mem_map_of_mem (seqSegment run) hcmd))
      (strContains_seqSegment run cmd)
  · intro run commands h
    exact executeSequenceAux_all_success run _ _ [] [] 0 h

/-- A concrete runner for the witness: `B` fails with exit code 3,
everything else succeeds. -/
def demoRun : String → ExecutionResult := fun cmd =>
  if cmd = "B" then
    { exit_code := 3, stdout := "out-B", stderr := "boom", duration := 1, command := cmd }
  else
    { exit_code := 0, stdout := "out-" ++ cmd, stderr := "", duration := 1, command := cmd }

/-- C5 witness: over the concrete runner, `[A, B, C]` stops at `B` with
`B`'s exit code 3, and `[A, C]` (all passing) exits 0. -/
theorem sequence_stops_at_first_failure_witness :
    (executeSequence demoRun ["A", "B", "C"]).exit_code = 3 ∧
    (executeSequence demoRun ["A", "C"]).exit_code = 0 := by
  constructor
  · have h := (sequence_stops_at_first_failure.1 demoRun ["A"] "B" ["C"]
      (by decide) (by decide)).1
    exact h.trans (by decide)
  · exact sequence_stops_at_first_failure.2 demoRun ["A", "C"] (by decide)

/-- C6 (amended): whenever the spawned command exceeds the given timeout
(`subprocess.TimeoutExpired`), `_execute_single` returns an
`ExecutionResult` with the reserved exit code 124 and the human-readable
stderr message `"Command timed out after {timeout}s"` (executor.py
132-139).  The original claim's "distinct from any exit code a real
command can produce" does not hold — see the counterexample — and
forceful termination of the process tree is an operating-system effect
with no counterpart in the code path (streaming mode merely stops
waiting), hence outside this embedding. -/
theorem timeout_returns_reserved_code :
    ∀ (buffer : List String) (d : ℚ) (t : Option Int) (wd cmd : String),
      (executeSingle true (.timesOut buffer d) t wd cmd).exit_code = 124 ∧
      (executeSingle true (.timesOut buffer d) t wd cmd).stderr
        = "Command timed out after " ++ pyOptIntStr t ++ "s" :=
  fun _ _ _ _ _ => ⟨rfl, rfl⟩

/-- C6 counterexample to "a reserved 'timed out' value distinct from any
exit code a real command can produce": a process that itself completes
with status 124 yields an `ExecutionResult` with the very same exit code
as a timed-out one. -/
theorem timeout_code_collides_with_real_exit_code :
    (executeSingle true (.completes 124 "done" "" 1) (some 60) "." "pytest").exit_code
      = (executeSingle true (.timesOut [] 60) (some 60) "." "pytest").exit_code := by
  decide

end SystemEval

namespace SystemEval

/-! ### Output parser (`TestExecutor.parse_test_results`, executor.py 251-321)

The parser applies a handful of fixed regular expressions with
`re.search`.  Each is embedded as a specialised searcher with Python's
leftmost semantics.  Two observations make the patterns deterministic so
that no general backtracking engine is needed: a greedy `\d+` (or
`[\d.]+`) followed by a literal starting with a character outside the
class can only match as the *maximal* run (shortening the run leaves a
class character where the literal's first character must match), and a
greedy `\s*` followed by `\d` likewise.  The only remaining backtracking
— the lazy `.*?` segments of the pytest and Playwright patterns, which
cannot cross a newline since `re.DOTALL` is not set — is realised by
`lazyScan`, nested so that an inner failure resumes the outer scan.
Digits are ASCII, as in every output the repository parses. -/

/-- Strip `lit` from the head of `cs` under a character comparison,
returning the remainder. -/
def stripLit (eq : Char → Char → Bool) : List Char → List Char → Option (List Char)
  | [], cs => some cs
  | _, [] => none
  | l :: ls, c :: cs => if eq l c then stripLit eq ls cs else none

/-- Case-sensitive character comparison. -/
def csEq (a b : Char) : Bool := a == b

/-- Case-insensitive (ASCII) character comparison, for `re.IGNORECASE`. -/
def ciEq (a b : Char) : Bool := a.toLower == b.toLower

/-- Python's `\s` (ASCII part). -/
def isPySpace (c : Char) : Bool :=
  c == ' ' || c == '\t' || c == '\n' || c == '\r' || c == '\x0b' || c == '\x0c'

/-- Numeric value of a digit run. -/
def digitsToNat (ds : List Char) : Nat :=
  ds.foldl (fun a c => a * 10 + (c.toNat - 48)) 0

/-- Match `(\d+)lit` at the current position: the maximal digit run
(nonempty) followed by the literal.  Returns the captured number and the
remainder after the literal. -/
def numThenLit (eq : Char → Char → Bool) (lit : List Char) (cs : List Char) :
    Option (Nat × List Char) :=
  let (ds, rest) := cs.span (·.isDigit)
  if ds.isEmpty then none
  else (stripLit eq lit rest).map (fun rest' => (digitsToNat ds, rest'))

/-- Match `([\d.]+)lit` at the current position: the maximal run of
digits and dots (nonempty) followed by the literal.  Returns the captured
run (as a string, to be fed to `float()`) and the remainder. -/
def floatThenLit (eq : Char → Char → Bool) (lit : List Char) (cs : List Char) :
    Option (String × List Char) :=
  let (ds, rest) := cs.span (fun c => c.isDigit || c == '.')
  if ds.isEmpty then none
  else (stripLit eq lit rest).map (fun rest' => (String.mk ds, rest'))

/-- `re.search` leftmost scan: try the matcher at every position, first
success wins. -/
def searchPos (f : List Char → Option α) : List Char → Option α
  | [] => f []
  | c :: cs =>
    match f (c :: cs) with
    | some r => some r
    | none => searchPos f cs

/-- Lazy `.*?` segment: try the continuation at the current position,
then one character further, never consuming a newline (`.` does not match
`\n` without `re.DOTALL`). -/
def lazyScan (f : List Char → Option α) : List Char → Option α
  | [] => f []
  | c :: cs =>
    match f (c :: cs) with
    | some r => some r
    | none => if c = '\n' then none else lazyScan f cs

/-- `re.search(r"(\d+)lit", output)` for a literal tail (used for
`(\d+) passed`, `(\d+) failed`, `(\d+) errors?` — the optional `s` can
neither block nor change the capture — and `(\d+) skipped`). -/
def searchNumLit (lit : String) (cs : List Char) : Option Nat :=
  searchPos (fun p => (numThenLit csEq lit.data p).map (·.1)) cs

/-- `re.search(r"in ([\d.]+)s", output)`. -/
def searchDuration (cs : List Char) : Option String :=
  searchPos (fun p => do
    let r ← stripLit csEq "in ".data p
    let (d, _) ← floatThenLit csEq "s".data r
    pure d) cs

/-- One attempt of the pytest pattern
`(\d+) passed.*?(\d+) failed.*?(\d+) error.*?in ([\d.]+)s` (IGNORECASE)
at a fixed start position. -/
def pytestTry (cs : List Char) : Option (Nat × Nat × Nat × String) := do
  let (p, r₁) ← numThenLit ciEq " passed".data cs
  lazyScan (fun c₂ => do
    let (f, r₂) ← numThenLit ciEq " failed".data c₂
    lazyScan (fun c₃ => do
      let (e, r₃) ← numThenLit ciEq " error".data c₃
      lazyScan (fun c₄ => do
        let r₄ ← stripLit ciEq "in ".data c₄
        let (d, _) ← floatThenLit ciEq "s".data r₄
        pure (p, f, e, d)) r₃) r₂) r₁

/-- `re.search` of the pytest combined summary (executor.py 265-268). -/
def searchPytest (cs : List Char) : Option (Nat × Nat × Nat × String) :=
  searchPos pytestTry cs

/-- One attempt of the Jest pattern
`Tests:\s*(\d+) passed,\s*(\d+) failed,\s*(\d+) total` at a fixed start
position. -/
def jestTry (cs : List Char) : Option (Nat × Nat) := do
  let r₀ ← stripLit csEq "Tests:".data cs
  let (p, r₂) ← numThenLit csEq " passed,".data (r₀.dropWhile isPySpace)
  let (f, r₄) ← numThenLit csEq " failed,".data (r₂.dropWhile isPySpace)
  let (_, _) ← numThenLit csEq " total".data (r₄.dropWhile isPySpace)
  pure (p, f)

/-- `re.search` of the Jest summary (executor.py 288-291). -/
def searchJest (cs : List Char) : Option (Nat × Nat) :=
  searchPos jestTry cs

/-- One attempt of the Playwright pattern `(\d+) passed.*?\(([\d.]+)s\)`
at a fixed start position. -/
def playwrightTry (cs : List Char) : Option (Nat × String) := do
  let (p, r₁) ← numThenLit csEq " passed".data cs
  lazyScan (fun c₂ => do
    let r₂ ← stripLit csEq "(".data c₂
    let (d, _) ← floatThenLit csEq "s)".data r₂
    pure (p, d)) r₁

/-- `re.search` of the Playwright summary (executor.py 297). -/
def searchPlaywright (cs : List Char) : Option (Nat × String) :=
  searchPos playwrightTry cs

/-- Python `float()` on a `[\d.]+` capture: digits with at most one dot
and at least one digit; anything else (e.g. `".."`) raises `ValueError`,
modelled as `none`. -/
def pyFloatQ (s : String) : Option ℚ :=
  let (intPart, rest) := s.data.span (·.isDigit)
  match rest with
  | [] => if intPart.isEmpty then none else some (mkRat (digitsToNat intPart) 1)
  | '.' :: frac =>
    if frac.all (·.isDigit) ∧ ¬(intPart.isEmpty ∧ frac.isEmpty) then
      some (mkRat (digitsToNat (intPart ++ frac)) (10 ^ frac.length))
    else none
  | _ => none

end SystemEval

namespace SystemEval

/-- `TestResult` dataclass (`types.py` 161-202): test counts with an
objective verdict.  Only the fields the claims touch are carried;
`total` is the value after `__post_init__`. -/
structure TestResult where
  passed : Int
  failed : Int
  errors : Int
  skipped : Int
  duration : ℚ
  total : Int
  exit_code : Int := 0
  parsing_warning : Option String := none
  parsed_from : Option String := none
deriving DecidableEq, Repr

/-- Construct a `TestResult` the way the dataclass does: `__post_init__`
computes `total` when it was not supplied (`types.py` 184-187). -/
def mkTestResult (passed failed errors skipped : Int) (duration : ℚ)
    (exit_code : Int) (total : Option Int := none)
    (parsing_warning : Option String := none)
    (parsed_from : Option String := none) : TestResult :=
  { passed := passed, failed := failed, errors := errors, skipped := skipped,
    duration := duration,
    total := total.getD (passed + failed + errors + skipped),
    exit_code := exit_code, parsing_warning := parsing_warning,
    parsed_from := parsed_from }

/-- `TestResult.verdict` (`types.py` 189-202). -/
def TestResult.verdict (t : TestResult) : Verdict :=
  if t.exit_code = 2 then .ERROR
  else if t.total = 0 then .ERROR
  else if t.parsed_from = some "fallback" ∧ t.exit_code ≠ 0 then .ERROR
  else if t.failed > 0 ∨ t.errors > 0 then .FAIL
  else .PASS

/-- `TestExecutor.parse_test_results` (executor.py 251-321): pytest
combined summary first, else the simpler per-count patterns; then the
Jest and Playwright overrides, the final `(\d+) failed` override, and
the exit-code fallback when no count was recovered.  The constructed
`TestResult` carries no `parsed_from` marker — the dataclass default
`None` — exactly as the source constructs it (executor.py 314-321).
`none` models an uncaught `ValueError` from `float()` on a degenerate
`[\d.]+` capture. -/
def parseTestResults (output : String) (exit_code : Int) : Option TestResult := do
  let cs := output.data
  let (passed, failed, errors, skipped, duration) ←
    match searchPytest cs with
    | some (p, f, e, dstr) => do
        let d ← pyFloatQ dstr
        pure ((p : Int), (f : Int), (e : Int), (0 : Int), d)
    | none => do
        let p : Int := ((searchNumLit " passed" cs).getD 0 : Nat)
        let f : Int := ((searchNumLit " failed" cs).getD 0 : Nat)
        let e : Int := ((searchNumLit " error" cs).getD 0 : Nat)
        let sk : Int := ((searchNumLit " skipped" cs).getD 0 : Nat)
        match searchDuration cs with
        | some dstr => do
            let d ← pyFloatQ dstr
            pure (p, f, e, sk, d)
        | none => pure (p, f, e, sk, (0 : ℚ))
  let (passed, failed) :=
    match searchJest cs with
    | some (p, f) => ((p : Int), (f : Int))
    | none => (passed, failed)
  let (passed, duration) ←
    match searchPlaywright cs with
    | some (p, dstr) => do
        let d ← pyFloatQ dstr
        pure ((p : Int), d)
    | none => pure (passed, duration)
  let failed :=
    match searchNumLit " failed" cs with
    | some f => (f : Int)
    | none => failed
  let (passed, failed) :=
    if passed = 0 ∧ failed = 0 ∧ errors = 0 then
      if exit_code = 0 then ((1 : Int), failed) else (passed, (1 : Int))
    else (passed, failed)
  pure (mkTestResult passed failed errors skipped duration exit_code)

end SystemEval

namespace SystemEval

/-- C4: every `TestResult` carrying the `"fallback"` provenance marker
together with a non-zero exit code gets verdict ERROR — never FAIL and
never PASS (`types.py` 189-202: the `exit_code == 2` and `total == 0`
branches already yield ERROR, and otherwise the dedicated fallback branch
fires before the FAIL/PASS cases). -/
theorem fallback_nonzero_exit_is_error :
    ∀ t : TestResult, t.parsed_from = some "fallback" → t.exit_code ≠ 0 →
      t.verdict = .ERROR ∧ t.verdict ≠ .FAIL ∧ t.verdict ≠ .PASS := by
  intro t hpf hec
  have h : t.verdict = .ERROR := by
    unfold TestResult.verdict
    by_cases h2 : t.exit_code = 2
    · rw [if_pos h2]
    · rw [if_neg h2]
      by_cases h0 : t.total = 0
      · rw [if_pos h0]
      · rw [if_neg h0, if_pos ⟨hpf, hec⟩]
  refine ⟨h, ?_, ?_⟩ <;> rw [h] <;> simp

/-- C4 witness: the theorem at a concrete fallback result (one failure,
exit code 1). -/
theorem fallback_nonzero_exit_is_error_witness :
    (mkTestResult 0 1 0 0 0 1 none none (some "fallback")).verdict = .ERROR :=
  (fallback_nonzero_exit_is_error
    (mkTestResult 0 1 0 0 0 1 none none (some "fallback")) rfl (by decide)).1

/-- C3: evaluation of `parse_test_results` at outputs from which no test
count is recoverable.  The exit-code fallback counts are exactly as the
claim states — exit 0 gives `passed=1, failed=0`, non-zero exit gives
`failed=1, passed=0` (executor.py 307-312) — but the constructed
`TestResult` (executor.py 314-321) leaves `parsed_from` at its dataclass
default `None`: the `"fallback"` provenance marker the claim requires
(and which `types.py` 196-199 documents and checks in its verdict logic)
is never attached. -/
theorem fallback_counts_but_no_marker :
    parseTestResults "Something went wrong" 1 = some (mkTestResult 0 1 0 0 0 1) ∧
    parseTestResults "All checks completed" 0 = some (mkTestResult 1 0 0 0 0 0) ∧
    (mkTestResult 0 1 0 0 0 1).parsed_from = none ∧
    (mkTestResult 1 0 0 0 0 0).parsed_from = none := by
  refine ⟨by decide, by decide, rfl, rfl⟩

/-- C9 (amended): the parser extracts `passed=12, failed=3, errors=1,
duration=4.5` from the text `"12 passed, 3 failed, 1 error in 4.5s"` on
its own, and from any surrounding text in which that occurrence is what
each of the code's searches finds: the pytest summary search yields
`(12, 3, 1, "4.5")`, the later `(\d+) failed` search yields `3`, and no
Jest or Playwright summary matches anywhere.  (Unconstrained surrounding
text can override the values — see the counterexample.) -/
theorem parser_pytest_summary :
    (∀ (out : String) (ec : Int),
      searchPytest out.data = some (12, 3, 1, "4.5") →
      searchJest out.data = none →
      searchPlaywright out.data = none →
      searchNumLit " failed" out.data = some 3 →
      parseTestResults out ec = some (mkTestResult 12 3 1 0 (mkRat 9 2) ec)) ∧
    parseTestResults "12 passed, 3 failed, 1 error in 4.5s" 1 =
      some (mkTestResult 12 3 1 0 (mkRat 9 2) 1) := by
  constructor
  · intro out ec h₁ h₂ h₃ h₄
    simp only [parseTestResults, h₁, h₂, h₃, h₄]
    rfl
  · decide

/-- C9 witness: the general half applied to the summary text itself (with
a nonzero exit code, which the extraction ignores). -/
theorem parser_pytest_summary_witness :
    parseTestResults "12 passed, 3 failed, 1 error in 4.5s" 7 =
      some (mkTestResult 12 3 1 0 (mkRat 9 2) 7) :=
  parser_pytest_summary.1 "12 passed, 3 failed, 1 error in 4.5s" 7
    (by decide) (by decide) (by decide) (by decide)

/-- C9 counterexample to "whatever other text surrounds it": an output
that contains `"12 passed, 3 failed, 1 error in 4.5s"` verbatim but is
preceded by a Playwright-style line `"7 passed (2.0s)"`; the Playwright
override (executor.py 296-300) then reports `passed = 7` and
`duration = 2.0` instead of 12 and 4.5. -/
theorem parser_confused_by_surrounding_text :
    parseTestResults "7 passed (2.0s)\n12 passed, 3 failed, 1 error in 4.5s" 1 =
      some (mkTestResult 7 3 1 0 (mkRat 2 1) 1) ∧
    (7 : Int) ≠ 12 ∧ mkRat 2 1 ≠ mkRat 9 2 := by
  refine ⟨by decide, by decide, by decide⟩

end SystemEval


namespace SystemEval

/-! ### Composite-dependency validation (`SystemEvalConfig.validate_composite_deps`,
config.py 261-274)

The Pydantic `model_validator(mode="after")` runs when the config object
is constructed, before any environment is built or `setup()` runs.  Only
the fields it inspects are modelled: each environment's `type` tag and,
for composite configs, its `depends_on` list; the environment dict is an
ordered association list. -/

/-- The `type` tag of an environment config (config.py 80-162). -/
inductive EnvType where
  | standalone
  | dockerCompose
  | composite
  | ngrok
  | browser
deriving DecidableEq, Repr

/-- The slice of one environment config that `validate_composite_deps`
reads. -/
structure EnvConfig where
  type : EnvType
  depends_on : List String := []
deriving DecidableEq, Repr

/-- First composite environment (in dict order) with a dependency name
not among the defined environment names, together with that name. -/
def findUndefinedDep (names : List String) : List (String × EnvConfig) → Option (String × String)
  | [] => none
  | (n, cfg) :: rest =>
    if cfg.type = .composite then
      match cfg.depends_on.find? (fun d => !names.contains d) with
      | some d => some (n, d)
      | none => findUndefinedDep names rest
    else findUndefinedDep names rest

/-- `SystemEvalConfig.validate_composite_deps` (config.py 261-274):
raises `ValueError` on the first composite environment whose `depends_on`
references an undefined name; otherwise returns successfully. -/
def validateCompositeDeps (envs : List (String × EnvConfig)) : Except String Unit :=
  match findUndefinedDep (envs.map Prod.fst) envs with
  | some (n, d) =>
    .error ("Environment '" ++ n ++ "' depends on '" ++ d ++ "' which is not defined")
  | none => .ok ()

/-- `findUndefinedDep` returns `none` exactly when every composite
dependency is a defined name. -/
theorem findUndefinedDep_eq_none_iff (names : List String) :
    ∀ (l : List (String × EnvConfig)),
      findUndefinedDep names l = none ↔
        ∀ p ∈ l, p.2.type = .composite → ∀ d ∈ p.2.depends_on, d ∈ names := by
  intro l
  induction l with
  | nil => simp [findUndefinedDep]
  | cons hd rest ih =>
    obtain ⟨n, cfg⟩ := hd
    by_cases hty : cfg.type = .composite
    · rcases hfind : cfg.depends_on.find? (fun d => !names.contains d) with _ | d
      · unfold findUndefinedDep
        rw [if_pos hty]
        simp only [hfind, ih, List.mem_cons]
        rw [List.find?_eq_none] at hfind
        constructor
        · intro h p hp hc dd hdd
          rcases hp with hp | hp
          · subst hp
            have := hfind dd hdd
            simpa using this
          · exact h p hp hc dd hdd
        · intro h p hp hc dd hdd
          exact h p (Or.inr hp) hc dd hdd
      · have hmem : d ∈ cfg.depends_on := List.mem_of_find?_eq_some hfind
        have hnotin : d ∉ names := by simpa using List.find?_some hfind
        unfold findUndefinedDep
        rw [if_pos hty]
        simp only [hfind]
        constructor
        · intro h
          exact absurd h (by simp)
        · intro h
          exact absurd (h (n, cfg) (List.mem_cons_self _ _) hty d hmem) hnotin
    · unfold findUndefinedDep
      rw [if_neg hty, ih]
      constructor
      · intro h p hp hc dd hdd
        rcases List.mem_cons.mp hp with hp | hp
        · subst hp
          exact absurd hc hty
        · exact h p hp hc dd hdd
      · intro h p hp hc dd hdd
        exact h p (List.mem_cons_of_mem _ hp) hc dd hdd

/-- C8 (amended): construction-time validation succeeds exactly when
every composite environment's `depends_on` names only defined
environments — so a composite referencing an undeclared dependency name
is rejected (with a `ValueError`) when the config object is constructed,
before any `setup()` runs.  (The original claim's cycle half is false:
the validator performs no cycle check — see the counterexample, where
cyclic composite graphs validate successfully.) -/
theorem composite_dep_validation :
    ∀ (envs : List (String × EnvConfig)),
      validateCompositeDeps envs = .ok () ↔
        ∀ p ∈ envs, p.2.type = .composite →
          ∀ d ∈ p.2.depends_on, d ∈ envs.map Prod.fst := by
  intro envs
  have key : validateCompositeDeps envs = .ok () ↔
      findUndefinedDep (envs.map Prod.fst) envs = none := by
    unfold validateCompositeDeps
    rcases h : findUndefinedDep (envs.map Prod.fst) envs with _ | nd
    · simp
    · simp
  rw [key, findUndefinedDep_eq_none_iff]

/-- C8 witness: a two-environment config where the composite references
the declared docker-compose environment validates successfully, via the
theorem's right-to-left direction. -/
theorem composite_dep_validation_witness :
    validateCompositeDeps
      [("backend", { type := .dockerCompose }),
       ("full-stack", { type := .composite, depends_on := ["backend"] })] = .ok () :=
  (composite_dep_validation
    [("backend", { type := .dockerCompose }),
     ("full-stack", { type := .composite, depends_on := ["backend"] })]).mpr (by decide)

/-- C8 counterexample to "rejects cyclic composite dependency graphs":
both a two-environment cycle and a self-referential composite pass
`validate_composite_deps` — every referenced name is defined, which is
all the validator checks. -/
theorem composite_cycles_accepted :
    validateCompositeDeps
      [("a", { type := .composite, depends_on := ["b"] }),
       ("b", { type := .composite, depends_on := ["a"] })] = .ok () ∧
    validateCompositeDeps
      [("self", { type := .composite, depends_on := ["self"] })] = .ok () :=
  ⟨rfl, rfl⟩

/-! ### Browser readiness (`BrowserEnvironment.wait_ready`, browser.py 170-194) -/

/-- Observable behaviour of a sub-environment (server or tunnel) inside
`BrowserEnvironment.wait_ready`: for a given integer budget, whether its
own `wait_ready` returns true and how many wall-clock seconds the call
consumes; `isReady` is the point-in-time probe. -/
structure WaitBehavior where
  ok : Int → Bool
  elapsed : Int → ℚ
  isReady : Bool

/-- Python `int()` truncation (toward zero) of a float, on rationals. -/
def pyIntTrunc (q : ℚ) : Int := Int.tdiv q.num (q.den : Int)

/-- Trace of one `BrowserEnvironment.wait_ready(timeout)` call: the
returned boolean and the budgets passed to the server's and the tunnel's
`wait_ready` (`none` = that sub-wait was never invoked). -/
structure WaitTrace where
  result : Bool
  serverBudget : Option Int
  tunnelBudget : Option Int
deriving DecidableEq, Repr

/-- The tunnel half of `wait_ready` (browser.py 184-191): the tunnel is
probed only when configured and `remaining > 0`, with budget
`int(remaining)`; otherwise the method falls through to `return True`. -/
def tunnelPhase (tunnel : Option WaitBehavior) (remaining : ℚ) (sb : Option Int) : WaitTrace :=
  match tunnel with
  | some t =>
    if remaining > 0 then
      if t.ok (pyIntTrunc remaining) = false then
        ⟨false, sb, some (pyIntTrunc remaining)⟩
      else ⟨true, sb, some (pyIntTrunc remaining)⟩
    else ⟨true, sb, none⟩
  | none => ⟨true, sb, none⟩

/-- `BrowserEnvironment.wait_ready` (browser.py 170-194): with
`remaining` initialised to the full timeout, the server (when
configured) is waited on first with budget `int(remaining)`; on its
failure the method returns false without touching the tunnel; otherwise
the server's elapsed wall-clock time is subtracted and the tunnel phase
runs on what remains. -/
def browserWaitReady (server tunnel : Option WaitBehavior) (timeout : Int) : WaitTrace :=
  match server with
  | some s =>
    if s.ok (pyIntTrunc (timeout : ℚ)) = false then
      ⟨false, some (pyIntTrunc (timeout : ℚ)), none⟩
    else
      tunnelPhase tunnel ((timeout : ℚ) - s.elapsed (pyIntTrunc (timeout : ℚ)))
        (some (pyIntTrunc (timeout : ℚ)))
  | none => tunnelPhase tunnel (timeout : ℚ) none

/-- `int()` of a value that is already an integer. -/
theorem pyIntTrunc_intCast (n : Int) : pyIntTrunc (n : ℚ) = n := by
  unfold pyIntTrunc
  rw [Rat.num_intCast, Rat.den_intCast]
  exact Int.tdiv_one n

/-- The tunnel phase returns whatever server budget it was handed. -/
theorem tunnelPhase_serverBudget (tunnel : Option WaitBehavior) (remaining : ℚ)
    (sb : Option Int) : (tunnelPhase tunnel remaining sb).serverBudget = sb := by
  cases tunnel with
  | none => rfl
  | some t =>
    simp only [tunnelPhase]
    split_ifs <;> rfl

/-- A server behaviour for the concrete configuration: always reports
ready, consuming the whole budget. -/
def demoBrowserServer : WaitBehavior :=
  { ok := fun _ => true, elapsed := fun b => (b : ℚ), isReady := true }

/-- A tunnel behaviour that is not ready and would fail any wait. -/
def demoBrowserTunnel : WaitBehavior :=
  { ok := fun _ => false, elapsed := fun _ => 0, isReady := false }

/-- C10: in `BrowserEnvironment.wait_ready(timeout)` the server is waited
on first with the full budget `int(timeout)`; the tunnel is probed only
with the remaining budget `int(timeout - serverElapsed)` when that is
positive; when the server consumes the entire budget (`remaining <= 0`)
the method returns true without ever probing the tunnel — in particular
there is a configuration (a slow ready server plus a not-ready tunnel)
for which `wait_ready` returns true although the configured tunnel is
not ready. -/
theorem browser_wait_ready_budgets :
    (∀ (s : WaitBehavior) (tunnel : Option WaitBehavior) (timeout : Int),
      (browserWaitReady (some s) tunnel timeout).serverBudget = some timeout) ∧
    (∀ (s t : WaitBehavior) (timeout : Int),
      s.ok timeout = true →
      0 < (timeout : ℚ) - s.elapsed timeout →
      (browserWaitReady (some s) (some t) timeout).tunnelBudget
        = some (pyIntTrunc ((timeout : ℚ) - s.elapsed timeout))) ∧
    (∀ (s t : WaitBehavior) (timeout : Int),
      s.ok timeout = true →
      (timeout : ℚ) - s.elapsed timeout ≤ 0 →
      (browserWaitReady (some s) (some t) timeout).result = true ∧
      (browserWaitReady (some s) (some t) timeout).tunnelBudget = none) ∧
    (demoBrowserTunnel.isReady = false ∧
      (browserWaitReady (some demoBrowserServer) (some demoBrowserTunnel) 10).result = true ∧
      (browserWaitReady (some demoBrowserServer) (some demoBrowserTunnel) 10).tunnelBudget
        = none) := by
  have hsb : ∀ (s : WaitBehavior) (tunnel : Option WaitBehavior) (timeout : Int),
      (browserWaitReady (some s) tunnel timeout).serverBudget = some timeout := by
    intro s tunnel timeout
    simp only [browserWaitReady, pyIntTrunc_intCast]
    by_cases h : s.ok timeout = false
    · rw [if_pos h]
    · rw [if_neg h]
      exact tunnelPhase_serverBudget ..
  have hpos : ∀ (s t : WaitBehavior) (timeout : Int),
      s.ok timeout = true →
      0 < (timeout : ℚ) - s.elapsed timeout →
      (browserWaitReady (some s) (some t) timeout).tunnelBudget
        = some (pyIntTrunc ((timeout : ℚ) - s.elapsed timeout)) := by
    intro s t timeout hok hrem
    simp only [browserWaitReady, pyIntTrunc_intCast]
    rw [if_neg (by rw [hok]; simp)]
    simp only [tunnelPhase]
    rw [if_pos hrem]
    split_ifs <;> rfl
  have hexh : ∀ (s t : WaitBehavior) (timeout : Int),
      s.ok timeout = true →
      (timeout : ℚ) - s.elapsed timeout ≤ 0 →
      (browserWaitReady (some s) (some t) timeout).result = true ∧
      (browserWaitReady (some s) (some t) timeout).tunnelBudget = none := by
    intro s t timeout hok hrem
    simp only [browserWaitReady, pyIntTrunc_intCast]
    rw [if_neg (by rw [hok]; simp)]
    simp only [tunnelPhase]
    rw [if_neg (not_lt.mpr hrem)]
    exact ⟨rfl, rfl⟩
  refine ⟨hsb, hpos, hexh, rfl, ?_⟩
  exact hexh demoBrowserServer demoBrowserTunnel 10 rfl
    (by show (10 : ℚ) - ((10 : Int) : ℚ) ≤ 0; norm_num)

/-- C10 witness: the exhausted-budget case applied to the concrete slow
server and not-ready tunnel. -/
theorem browser_wait_ready_budgets_witness :
    (browserWaitReady (some demoBrowserServer) (some demoBrowserTunnel) 20).result = true :=
  (browser_wait_ready_budgets.2.2.1 demoBrowserServer demoBrowserTunnel 20 rfl
    (by show (20 : ℚ) - ((20 : Int) : ℚ) ≤ 0; norm_num)).1

end SystemEval
